import Mathlib

/-!
Verification of the run-state machine, main-loop event handling and the
ranchu board construction of the remixos-external-qemu-android sources
(vl.c and hw/arm/ranchu.c), as a shallow embedding in Lean 4.
-/

set_option maxHeartbeats 1000000

namespace QemuAndroid

/-- The `RunState` enum used by the run-state machine in vl.c
(the qapi-generated enum; `RUN_STATE_MAX` is modelled by `Option` sentinels
where the C code uses it). -/
inductive RunState where
  | debug
  | inmigrate
  | internal_error
  | io_error
  | paused
  | postmigrate
  | prelaunch
  | finish_migrate
  | restore_vm
  | running
  | save_vm
  | shutdown
  | suspended
  | watchdog
  | guest_panicked
deriving DecidableEq, Fintype, Repr

/-- `runstate_transitions_def` from vl.c (lines 712-769): the fixed
transition table. The `{ RUN_STATE_MAX, RUN_STATE_MAX }` terminator entry is
modelled by the end of the list, matching the loop in `runstate_init` which
stops at `from == RUN_STATE_MAX`. -/
def runstate_transitions_def : List (RunState × RunState) :=
  [ (.debug, .running),
    (.debug, .finish_migrate),

    (.inmigrate, .running),
    (.inmigrate, .paused),

    (.internal_error, .paused),
    (.internal_error, .finish_migrate),

    (.io_error, .running),
    (.io_error, .finish_migrate),

    (.paused, .running),
    (.paused, .finish_migrate),

    (.postmigrate, .running),
    (.postmigrate, .finish_migrate),

    (.prelaunch, .running),
    (.prelaunch, .finish_migrate),
    (.prelaunch, .inmigrate),

    (.finish_migrate, .running),
    (.finish_migrate, .postmigrate),

    (.restore_vm, .running),

    (.running, .debug),
    (.running, .internal_error),
    (.running, .io_error),
    (.running, .paused),
    (.running, .finish_migrate),
    (.running, .restore_vm),
    (.running, .save_vm),
    (.running, .shutdown),
    (.running, .watchdog),
    (.running, .guest_panicked),

    (.save_vm, .running),

    (.shutdown, .paused),
    (.shutdown, .finish_migrate),

    (.debug, .suspended),
    (.running, .suspended),
    (.suspended, .running),
    (.suspended, .finish_migrate),

    (.watchdog, .running),
    (.watchdog, .finish_migrate),

    (.guest_panicked, .running),
    (.guest_panicked, .finish_migrate) ]

/-- The dense boolean matrix `runstate_valid_transitions` as computed by
`runstate_init` in vl.c: `true` exactly for the pairs listed in
`runstate_transitions_def`. -/
def runstate_valid_transitions (f t : RunState) : Bool :=
  decide ((f, t) ∈ runstate_transitions_def)

/-- `runstate_set` from vl.c (lines 791-803). In C an invalid transition
prints a diagnostic and calls `abort()`; the abort is modelled as `none`.
On success the new current run state (equal to `new_state`) is returned. -/
def runstate_set (current new_state : RunState) : Option RunState :=
  if runstate_valid_transitions current new_state then
    some new_state
  else
    none

/-- `runstate_check` from vl.c. -/
def runstate_check (current state : RunState) : Bool :=
  decide (current = state)

/-- `runstate_is_running` from vl.c. -/
def runstate_is_running (current : RunState) : Bool :=
  runstate_check current RunState.running

/-- `runstate_needs_reset` from vl.c. -/
def runstate_needs_reset (current : RunState) : Bool :=
  runstate_check current RunState.internal_error ||
    runstate_check current RunState.shutdown

/-- C1: for every pair (from, to) in the transition table, `runstate_set`
while current = from succeeds and the current state afterwards equals to;
for every pair of valid RunState values not in the table the call aborts
(modelled by `none`), never silently succeeding or doing nothing. -/
theorem runstate_set_matches_table :
    ∀ f t : RunState,
      ((f, t) ∈ runstate_transitions_def → runstate_set f t = some t) ∧
      ((f, t) ∉ runstate_transitions_def → runstate_set f t = none) := by
  decide

/-- Witness for C1: the in-table pair (running, paused) succeeds and the
out-of-table pair (paused, shutdown) aborts. -/
theorem runstate_set_matches_table_witness :
    runstate_set RunState.running RunState.paused = some RunState.paused ∧
      runstate_set RunState.paused RunState.shutdown = none :=
  ⟨(runstate_set_matches_table RunState.running RunState.paused).1 (by decide),
   (runstate_set_matches_table RunState.paused RunState.shutdown).2 (by decide)⟩

/-- The `WakeupReason` qapi enum (`QEMU_WAKEUP_REASON_*`); `none` is the
zero value, so it is the falsy value in `if (qemu_wakeup_requested())`. -/
inductive WakeupReason where
  | none
  | rtc
  | pmtimer
  | other
deriving DecidableEq, Repr

/-- The process-wide mutable state of vl.c relevant to the run-state machine
and the main loop: `current_run_state`, the request flags (vl.c lines
1709-1715), `vmstop_requested` (line 704, with `RUN_STATE_MAX` modelled as
`none`) and the `no_shutdown` / `no_reboot` overrides (lines 222-223). -/
structure SysState where
  current_run_state : RunState
  vmstop_requested : Option RunState
  reset_requested : Bool
  shutdown_requested : Bool
  powerdown_requested : Bool
  debug_requested : Bool
  suspend_requested : Bool
  wakeup_reason : WakeupReason
  no_shutdown : Bool
  no_reboot : Bool
deriving DecidableEq, Repr

/-- `runstate_set` acting on the whole system state (the C function mutates
the global `current_run_state`); `none` models the `abort()`. -/
def runstate_set_st (st : SysState) (new_state : RunState) : Option SysState :=
  (runstate_set st.current_run_state new_state).map
    (fun r => { st with current_run_state := r })

/-- `qemu_shutdown_requested` from vl.c (lines 1734-1737):
`atomic_xchg(&shutdown_requested, 0)` — read and clear. -/
def qemu_shutdown_requested (st : SysState) : Bool × SysState :=
  (st.shutdown_requested, { st with shutdown_requested := false })

/-- `qemu_reset_requested` from vl.c (lines 1755-1760): read and clear. -/
def qemu_reset_requested (st : SysState) : Bool × SysState :=
  (st.reset_requested, { st with reset_requested := false })

/-- `qemu_suspend_requested` from vl.c (lines 1762-1767): read and clear. -/
def qemu_suspend_requested (st : SysState) : Bool × SysState :=
  (st.suspend_requested, { st with suspend_requested := false })

/-- `qemu_wakeup_requested` from vl.c (lines 1769-1772): it returns
`wakeup_reason` and does NOT clear it. -/
def qemu_wakeup_requested (st : SysState) : WakeupReason × SysState :=
  (st.wakeup_reason, st)

/-- `qemu_powerdown_requested` from vl.c (lines 1774-1779): read and clear. -/
def qemu_powerdown_requested (st : SysState) : Bool × SysState :=
  (st.powerdown_requested, { st with powerdown_requested := false })

/-- `qemu_debug_requested` from vl.c (lines 1781-1786): read and clear. -/
def qemu_debug_requested (st : SysState) : Bool × SysState :=
  (st.debug_requested, { st with debug_requested := false })

/-- `qemu_vmstop_requested` from vl.c (lines 827-834): under the vmstop
lock, read the requested state into `*r`, reset the global to the
`RUN_STATE_MAX` sentinel (`none`), and report whether a real state was
pending. Returns (boolean result, value stored into `*r`, new state). -/
def qemu_vmstop_requested (st : SysState) :
    Bool × Option RunState × SysState :=
  (st.vmstop_requested.isSome, st.vmstop_requested,
    { st with vmstop_requested := none })

/-- `qemu_system_vmstop_request` from vl.c (lines 841-846), together with
`qemu_system_vmstop_request_prepare` which just takes the lock: store the
requested target state (overwriting any pending one). -/
def qemu_system_vmstop_request (state : RunState) (st : SysState) : SysState :=
  { st with vmstop_requested := some state }

/-- `qemu_system_reset_request` from vl.c (lines 1837-1846): with the
`no_reboot` override the request is recorded as a shutdown request,
otherwise as a reset request (`cpu_stop_current` and `qemu_notify_event`
touch no modelled state). -/
def qemu_system_reset_request (st : SysState) : SysState :=
  if st.no_reboot then
    { st with shutdown_requested := true }
  else
    { st with reset_requested := true }

/-- `qemu_system_shutdown_request` from vl.c (lines 1908-1913). -/
def qemu_system_shutdown_request (st : SysState) : SysState :=
  { st with shutdown_requested := true }

/-- `qemu_system_reset` from vl.c (lines 1820-1835): resets the devices and
possibly emits a qapi event; it touches none of the modelled state. -/
def qemu_system_reset (_report : Bool) (st : SysState) : SysState :=
  st

/-- `qemu_system_suspend` from vl.c (lines 1848-1854): pauses the vCPUs,
fires the suspend notifiers (both outside the modelled state) and performs
the validated transition to `RUN_STATE_SUSPENDED` (which can abort). -/
def qemu_system_suspend (st : SysState) : Option SysState :=
  runstate_set_st st RunState.suspended

/-- `qemu_system_powerdown` from vl.c (lines 1915-1919): emits the qapi
powerdown event and fires the powerdown notifiers; no modelled state. -/
def qemu_system_powerdown (st : SysState) : SysState :=
  st

/-- Modelled from the spec: `vm_stop` is defined in cpus.c, which is not
part of this excerpt (vl.c only calls it). Per the spec, a drained flag
"causes validated Run-State transitions" and handlers are "simple state
transitions over a pre-validated table": when the machine is running,
`vm_stop` pauses the vCPUs and applies the validated run-state transition
to the requested target (which can abort, modelled as `none`); when not
running it only flushes block devices, changing no modelled state. -/
def vm_stop (st : SysState) (state : RunState) : Option SysState :=
  if runstate_is_running st.current_run_state then
    runstate_set_st st state
  else
    some st

/-- The first statement of `main_loop_should_exit` (vl.c lines 1942-1944):
`if (qemu_debug_requested()) vm_stop(RUN_STATE_DEBUG);`. -/
def handle_debug (st : SysState) : Option SysState :=
  let d := qemu_debug_requested st
  if d.1 then vm_stop d.2 RunState.debug else some d.2

/-- vl.c lines 1945-1947:
`if (qemu_suspend_requested()) qemu_system_suspend();`. -/
def handle_suspend (st : SysState) : Option SysState :=
  let s := qemu_suspend_requested st
  if s.1 then qemu_system_suspend s.2 else some s.2

/-- vl.c lines 1957-1965: drain the reset request; if set, reset the
system and, when the current run state needs a reset (INTERNAL_ERROR or
SHUTDOWN), apply the validated transition to PAUSED. -/
def handle_reset (st : SysState) : Option SysState :=
  let r := qemu_reset_requested st
  if r.1 then
    let str := qemu_system_reset true r.2
    if runstate_needs_reset str.current_run_state then
      runstate_set_st str RunState.paused
    else
      some str
  else some r.2

/-- vl.c lines 1966-1974: `if (qemu_wakeup_requested())` — the drained
reason is truthy iff it is not `QEMU_WAKEUP_REASON_NONE`; the handler does
a silent system reset, fires the wakeup notifiers and then resets
`wakeup_reason` to NONE. -/
def handle_wakeup (st : SysState) : SysState :=
  let w := qemu_wakeup_requested st
  if w.1 ≠ WakeupReason.none then
    let str := qemu_system_reset false w.2
    { str with wakeup_reason := WakeupReason.none }
  else
    w.2

/-- vl.c lines 1975-1977:
`if (qemu_powerdown_requested()) qemu_system_powerdown();`. -/
def handle_powerdown (st : SysState) : SysState :=
  let p := qemu_powerdown_requested st
  if p.1 then qemu_system_powerdown p.2 else p.2

/-- vl.c lines 1978-1980: `if (qemu_vmstop_requested(&r)) vm_stop(r);`.
When the drain reports true, the value read into `r` is a real run state. -/
def handle_vmstop (st : SysState) : Option SysState :=
  match qemu_vmstop_requested st with
  | (true, some rs, st') => vm_stop st' rs
  | (_, _, st') => some st'

/-- The tail of `main_loop_should_exit` (vl.c lines 1957-1981) after the
shutdown branch: reset, wakeup, powerdown and vmstop handling, always
reaching the final `return false`; `none` models an `abort()` inside a
handler's run-state transition. -/
def main_loop_rest (st : SysState) : Option (Bool × SysState) :=
  ((handle_reset st).bind (fun st1 =>
    handle_vmstop (handle_powerdown (handle_wakeup st1)))).map
    (fun s => (false, s))

/-- `main_loop_should_exit` from vl.c (lines 1939-1982). The drains and
handlers run in the fixed source order: debug, suspend, shutdown, then
(via `main_loop_rest`) reset, wakeup, powerdown, pending vmstop. The
returned boolean is the C return value (`true` = the main loop
terminates); `none` models an `abort()` inside a handler's run-state
transition. -/
def main_loop_should_exit (st : SysState) : Option (Bool × SysState) :=
  (handle_debug st).bind (fun st1 =>
    (handle_suspend st1).bind (fun st2 =>
      let h := qemu_shutdown_requested st2
      if h.1 then
        -- qemu_kill_report and qapi_event_send_shutdown only report
        if h.2.no_shutdown then
          (vm_stop h.2 RunState.shutdown).bind main_loop_rest
        else
          some (true, h.2)
      else
        main_loop_rest h.2))

/-- `main_loop` from vl.c (lines 1984-2007): repeatedly wait for host
readiness (`main_loop_wait`, outside the modelled state) and drain the
flags, until `main_loop_should_exit` returns true. Fuel-indexed; `none`
covers both an abort inside an iteration and fuel exhaustion. -/
def main_loop : Nat → SysState → Option SysState
  | 0, _ => none
  | fuel + 1, st =>
    match main_loop_should_exit st with
    | none => none
    | some (true, st') => some st'
    | some (false, st') => main_loop fuel st'

lemma runstate_set_st_some {st st' : SysState} {t : RunState}
    (h : runstate_set_st st t = some st') :
    st' = { st with current_run_state := t } := by
  unfold runstate_set_st runstate_set at h
  split at h <;> simp_all

lemma vm_stop_some {st st' : SysState} {t : RunState}
    (h : vm_stop st t = some st') :
    st' = st ∨ st' = { st with current_run_state := t } := by
  unfold vm_stop at h
  split at h
  · exact Or.inr (runstate_set_st_some h)
  · simp_all

lemma main_loop_rest_no_exit {st st' : SysState} {ex : Bool}
    (h : main_loop_rest st = some (ex, st')) : ex = false := by
  unfold main_loop_rest at h
  cases ho : (handle_reset st).bind (fun st1 =>
    handle_vmstop (handle_powerdown (handle_wakeup st1))) with
  | none => rw [ho] at h; simp at h
  | some s => rw [ho] at h; simp at h; exact h.1

lemma bind_rest_no_exit {o : Option SysState} {ex : Bool} {st' : SysState}
    (h : o.bind main_loop_rest = some (ex, st')) : ex = false := by
  cases o with
  | none => simp at h
  | some s =>
    simp only [Option.some_bind] at h
    exact main_loop_rest_no_exit h

lemma handle_debug_fields {st st' : SysState}
    (h : handle_debug st = some st') :
    st'.shutdown_requested = st.shutdown_requested ∧
      st'.no_shutdown = st.no_shutdown := by
  unfold handle_debug qemu_debug_requested at h
  dsimp only at h
  split at h
  · rcases vm_stop_some h with h' | h' <;> subst h' <;> simp
  · have h' := Option.some.inj h; subst h'; simp

lemma handle_suspend_fields {st st' : SysState}
    (h : handle_suspend st = some st') :
    st'.shutdown_requested = st.shutdown_requested ∧
      st'.no_shutdown = st.no_shutdown := by
  unfold handle_suspend qemu_suspend_requested qemu_system_suspend at h
  dsimp only at h
  split at h
  · have h' := runstate_set_st_some h; subst h'; simp
  · have h' := Option.some.inj h; subst h'; simp

/-- C2: whenever an iteration's `main_loop_should_exit` returns (rather
than aborting inside a handler), it returns true — terminating the main
loop — exactly when the shutdown-requested flag was drained as set and the
`no_shutdown` override is not set; draining any other flag never makes the
iteration return true. -/
theorem main_loop_exit_iff (st : SysState) (ex : Bool) (st' : SysState)
    (h : main_loop_should_exit st = some (ex, st')) :
    ex = (st.shutdown_requested && !st.no_shutdown) := by
  unfold main_loop_should_exit at h
  cases hd : handle_debug st with
  | none => rw [hd] at h; simp at h
  | some st1 =>
    rw [hd] at h
    simp only [Option.some_bind] at h
    cases hs : handle_suspend st1 with
    | none => rw [hs] at h; simp at h
    | some st2 =>
      rw [hs] at h
      simp only [Option.some_bind] at h
      obtain ⟨hsd1, hns1⟩ := handle_debug_fields hd
      obtain ⟨hsd2, hns2⟩ := handle_suspend_fields hs
      simp only [qemu_shutdown_requested] at h
      by_cases hb : st2.shutdown_requested
      · simp only [hb, if_true] at h
        by_cases hn : st2.no_shutdown
        · simp only [hn, if_true] at h
          have hex := bind_rest_no_exit h
          rw [hex, ← hsd1, ← hsd2, ← hns1, ← hns2]
          simp [hb, hn]
        · simp only [hn, if_false] at h
          simp at h
          rw [h.1, ← hsd1, ← hsd2, ← hns1, ← hns2]
          simp [hb, hn]
      · simp only [hb, if_false] at h
        simp only [Bool.false_eq_true] at h
        rw [if_neg (by simp [hb])] at h
        have hex := main_loop_rest_no_exit h
        rw [hex, ← hsd1, ← hsd2, ← hns1, ← hns2]
        simp [hb]

/-- A running state with only the shutdown-requested flag set and no
overrides. -/
def stShut : SysState :=
  { current_run_state := RunState.running
    vmstop_requested := none
    reset_requested := false
    shutdown_requested := true
    powerdown_requested := false
    debug_requested := false
    suspend_requested := false
    wakeup_reason := WakeupReason.none
    no_shutdown := false
    no_reboot := false }

/-- Witness for C2: on `stShut` the iteration returns true, matching the
drained shutdown flag with no override. -/
theorem main_loop_exit_iff_witness :
    (true : Bool) = (stShut.shutdown_requested && !stShut.no_shutdown) :=
  main_loop_exit_iff stShut true { stShut with shutdown_requested := false }
    (by rfl)

/-- C3: setting the vmstop-requested flag twice with targets s1 then s2
before a drain: a single drain observes exactly one pending request whose
target is s2 (last write wins), and a subsequent drain with no intervening
set observes no pending request. -/
theorem vmstop_request_last_write_wins (st : SysState) (s1 s2 : RunState) :
    (qemu_vmstop_requested
        (qemu_system_vmstop_request s2
          (qemu_system_vmstop_request s1 st))).1 = true ∧
    (qemu_vmstop_requested
        (qemu_system_vmstop_request s2
          (qemu_system_vmstop_request s1 st))).2.1 = some s2 ∧
    (qemu_vmstop_requested
        ((qemu_vmstop_requested
            (qemu_system_vmstop_request s2
              (qemu_system_vmstop_request s1 st))).2.2)).1 = false := by
  simp [qemu_vmstop_requested, qemu_system_vmstop_request]

/-- A state whose wakeup reason is pending (RTC) and nothing else. -/
def stWake : SysState :=
  { current_run_state := RunState.running
    vmstop_requested := none
    reset_requested := false
    shutdown_requested := false
    powerdown_requested := false
    debug_requested := false
    suspend_requested := false
    wakeup_reason := WakeupReason.rtc
    no_shutdown := false
    no_reboot := false }

/-- Counterexample for C4: the wakeup-reason drain `qemu_wakeup_requested`
is not read-and-clear — after draining a pending RTC wakeup, an
immediately repeated drain with no intervening set still reports the
wakeup as requested (non-NONE), contradicting the claim for the
wakeup-reason flag. -/
theorem wakeup_drain_not_read_and_clear :
    (qemu_wakeup_requested stWake).1 = WakeupReason.rtc ∧
      (qemu_wakeup_requested
          (qemu_wakeup_requested stWake).2).1 ≠ WakeupReason.none := by
  decide

/-- C4 (amended): for debug, suspend, shutdown, reset and powerdown the
main loop's drain is read-and-clear — it returns whether the flag was set
and an immediately repeated drain reports not requested; the wakeup-reason
drain, by contrast, only reads the flag (a repeated drain reports the same
reason), and the flag is cleared by the main loop's wakeup handler
(`handle_wakeup`), which always leaves it at NONE. -/
theorem drains_read_and_clear (st : SysState) :
    (qemu_debug_requested st).1 = st.debug_requested ∧
    (qemu_debug_requested (qemu_debug_requested st).2).1 = false ∧
    (qemu_suspend_requested st).1 = st.suspend_requested ∧
    (qemu_suspend_requested (qemu_suspend_requested st).2).1 = false ∧
    (qemu_shutdown_requested st).1 = st.shutdown_requested ∧
    (qemu_shutdown_requested (qemu_shutdown_requested st).2).1 = false ∧
    (qemu_reset_requested st).1 = st.reset_requested ∧
    (qemu_reset_requested (qemu_reset_requested st).2).1 = false ∧
    (qemu_powerdown_requested st).1 = st.powerdown_requested ∧
    (qemu_powerdown_requested (qemu_powerdown_requested st).2).1 = false ∧
    (qemu_wakeup_requested st).1 = st.wakeup_reason ∧
    (qemu_wakeup_requested (qemu_wakeup_requested st).2).1 =
      st.wakeup_reason ∧
    (handle_wakeup st).wakeup_reason = WakeupReason.none := by
  refine ⟨rfl, rfl, rfl, rfl, rfl, rfl, rfl, rfl, rfl, rfl, rfl, rfl, ?_⟩
  unfold handle_wakeup qemu_wakeup_requested
  dsimp only
  split <;> simp_all

/-- A running state with the `no_reboot` override set and nothing pending. -/
def stNoReboot : SysState :=
  { current_run_state := RunState.running
    vmstop_requested := none
    reset_requested := false
    shutdown_requested := false
    powerdown_requested := false
    debug_requested := false
    suspend_requested := false
    wakeup_reason := WakeupReason.none
    no_shutdown := false
    no_reboot := true }

/-- C10: with the `no_reboot` override set, a system reset request sets
the shutdown-requested flag (leaving the reset flag alone), so the request
is delivered to the main loop as a shutdown and can terminate it (shown on
`stNoReboot`); without the override, the reset-requested flag is set. -/
theorem reset_request_honors_no_reboot (st : SysState) :
    (st.no_reboot = true →
      qemu_system_reset_request st = { st with shutdown_requested := true }) ∧
    (st.no_reboot = false →
      qemu_system_reset_request st = { st with reset_requested := true }) ∧
    (main_loop_should_exit (qemu_system_reset_request stNoReboot)).map
      Prod.fst = some true := by
  refine ⟨?_, ?_, by rfl⟩ <;>
    intro hn <;> simp [qemu_system_reset_request, hn]

/-- Witness for C10: applying the theorem at `stNoReboot` (override set)
and at `stShut`-like override-clear state. -/
theorem reset_request_honors_no_reboot_witness :
    qemu_system_reset_request stNoReboot =
      { stNoReboot with shutdown_requested := true } :=
  (reset_request_honors_no_reboot stNoReboot).1 rfl

/-! ## The ranchu board (hw/arm/ranchu.c) -/

/-- `MemMapEntry` from hw/arm/ranchu.c: a base address and a size
(`hwaddr`, a 64-bit address; the values in the static table are far below
2^64, so plain `Nat` is exact here). -/
structure MemMapEntry where
  base : Nat
  size : Nat
deriving DecidableEq, Repr

/-- The device-slot enum from hw/arm/ranchu.c (lines 72-85). The C names
RANCHU_GF_AUDIO and RANCHU_MMIO carry a _DEV suffix here. -/
inductive RanchuDevice where
  | RANCHU_FLASH
  | RANCHU_MEM
  | RANCHU_CPUPERIPHS
  | RANCHU_GIC_DIST
  | RANCHU_GIC_CPU
  | RANCHU_UART
  | RANCHU_GF_FB
  | RANCHU_GF_BATTERY
  | RANCHU_GF_AUDIO_DEV
  | RANCHU_GF_EVDEV
  | RANCHU_ANDROID_PIPE
  | RANCHU_MMIO_DEV
deriving DecidableEq, Fintype, Repr

/-- `memmap` from hw/arm/ranchu.c (lines 115-132): the static table of
addresses and sizes of the board's components. -/
def memmap : RanchuDevice → MemMapEntry
  | .RANCHU_FLASH => { base := 0, size := 0x8000000 }
  | .RANCHU_CPUPERIPHS => { base := 0x8000000, size := 0x20000 }
  | .RANCHU_GIC_DIST => { base := 0x8000000, size := 0x10000 }
  | .RANCHU_GIC_CPU => { base := 0x8010000, size := 0x10000 }
  | .RANCHU_UART => { base := 0x9000000, size := 0x1000 }
  | .RANCHU_GF_FB => { base := 0x9010000, size := 0x100 }
  | .RANCHU_GF_BATTERY => { base := 0x9020000, size := 0x1000 }
  | .RANCHU_GF_AUDIO_DEV => { base := 0x9030000, size := 0x100 }
  | .RANCHU_GF_EVDEV => { base := 0x9040000, size := 0x1000 }
  | .RANCHU_MMIO_DEV => { base := 0xa000000, size := 0x200 }
  | .RANCHU_ANDROID_PIPE => { base := 0xa010000, size := 0x2000 }
  | .RANCHU_MEM => { base := 0x40000000, size := 30 * 1024 * 1024 * 1024 }

/-- `irqmap` from hw/arm/ranchu.c (lines 134-142); slots without a
designated initializer are 0, as in the C array. -/
def irqmap : RanchuDevice → Nat
  | .RANCHU_UART => 1
  | .RANCHU_GF_FB => 2
  | .RANCHU_GF_BATTERY => 3
  | .RANCHU_GF_AUDIO_DEV => 4
  | .RANCHU_GF_EVDEV => 5
  | .RANCHU_ANDROID_PIPE => 6
  | .RANCHU_MMIO_DEV => 16
  | _ => 0

/-- `NUM_VIRTIO_TRANSPORTS` from hw/arm/ranchu.c (line 56). -/
def NUM_VIRTIO_TRANSPORTS : Nat := 32

/-- Two memory-map entries have disjoint address ranges:
[a.base, a.base + a.size) and [b.base, b.base + b.size) do not overlap. -/
def entriesDisjoint (a b : MemMapEntry) : Prop :=
  a.base + a.size ≤ b.base ∨ b.base + b.size ≤ a.base

instance (a b : MemMapEntry) : Decidable (entriesDisjoint a b) := by
  unfold entriesDisjoint; infer_instance

/-- The `%x`-style lowercase hexadecimal rendering used by the
`g_strdup_printf("%" PRIx64)` node names. -/
def hexStr (n : Nat) : String :=
  String.mk (Nat.toDigits 16 n)

/-- The observable construction steps of `ranchu_init` and its helpers:
device-tree node additions (`qemu_fdt_add_subnode`), CPU object creation
with its "start-powered-off" property, sysbus device creation
(`sysbus_create_simple`), the RAM region, and the GIC. Property writes on
already-added nodes are not tracked; no claim refers to them. -/
inductive BoardEvent where
  | fdtAddSubnode (path : String)
  | cpuInstantiated (idx : Nat) (start_powered_off : Bool)
  | sysbusDeviceCreated (name : String) (base : Nat) (irq : Nat)
  | ramRegionAdded (base : Nat) (size : Nat)
  | gicCreated (num_cpu : Nat)
deriving DecidableEq, Repr

/-- `create_fdt` from hw/arm/ranchu.c (lines 144-227): header properties,
the firmware/chosen/memory placeholder nodes, the fixed clock node and —
only when KVM is enabled — the PSCI node. (A failed `create_device_tree`
allocation exits; allocation is outside this model.) -/
def create_fdt (kvm_on : Bool) : List BoardEvent :=
  [ .fdtAddSubnode "/firmware",
    .fdtAddSubnode "/firmware/android",
    .fdtAddSubnode "/chosen",
    .fdtAddSubnode "/memory",
    .fdtAddSubnode "/apb-pclk" ] ++
  (if kvm_on then [.fdtAddSubnode "/psci"] else [])

/-- `fdt_add_timer_nodes` from hw/arm/ranchu.c (lines 229-248). -/
def fdt_add_timer_nodes : List BoardEvent :=
  [.fdtAddSubnode "/timer"]

/-- The CPU-construction loop of `ranchu_init` (lines 540-561): each of
the `smp_cpus` CPUs is instantiated in index order, and every CPU but
index 0 gets the "start-powered-off" property (`if (n > 0)`). -/
def ranchu_cpu_loop (smp_cpus : Nat) : List BoardEvent :=
  (List.range smp_cpus).map (fun n => .cpuInstantiated n (decide (0 < n)))

/-- `fdt_add_cpu_nodes` from hw/arm/ranchu.c (lines 250-275): add the
`/cpus` container, then one `/cpus/cpu@N` node per CPU, iterating
`for (cpu = smp_cpus - 1; cpu >= 0; cpu--)` — descending index order. -/
def fdt_add_cpu_nodes (smp_cpus : Nat) : List BoardEvent :=
  .fdtAddSubnode "/cpus" ::
    (List.range smp_cpus).reverse.map
      (fun cpu => .fdtAddSubnode ("/cpus/cpu@" ++ toString cpu))

/-- `create_gic` from hw/arm/ranchu.c (lines 298-346): instantiate the GIC
(wiring is outside the modelled events) and add its `/intc` node via
`fdt_add_gic_node`. -/
def create_gic (smp_cpus : Nat) : List BoardEvent :=
  [.gicCreated smp_cpus, .fdtAddSubnode "/intc"]

/-- `create_simple_device` from hw/arm/ranchu.c (lines 362-401): create
the sysbus device at its slot's base wired to its slot's IRQ line, and add
the `/<name>@<hex base>` node. -/
def create_simple_device (devid : RanchuDevice) (sysbus_name : String) :
    List BoardEvent :=
  [ .sysbusDeviceCreated sysbus_name (memmap devid).base (irqmap devid),
    .fdtAddSubnode ("/" ++ sysbus_name ++ "@" ++ hexStr (memmap devid).base) ]

/-- The base addresses at which the virtio transports are instantiated, in
instantiation order: the first loop of `create_virtio_devices` (lines
413-418) runs i = 0 .. NUM_VIRTIO_TRANSPORTS-1 with
`base = memmap[RANCHU_MMIO_DEV].base + i * size`. -/
def virtio_dev_bases : List Nat :=
  (List.range NUM_VIRTIO_TRANSPORTS).map
    (fun i => (memmap .RANCHU_MMIO_DEV).base + i * (memmap .RANCHU_MMIO_DEV).size)

/-- The base addresses of the virtio transports in device-tree
node-addition order: the second loop of `create_virtio_devices` (lines
420-435) runs i = NUM_VIRTIO_TRANSPORTS-1 down to 0. -/
def virtio_fdt_bases : List Nat :=
  (List.range NUM_VIRTIO_TRANSPORTS).reverse.map
    (fun i => (memmap .RANCHU_MMIO_DEV).base + i * (memmap .RANCHU_MMIO_DEV).size)

/-- `create_virtio_devices` from hw/arm/ranchu.c (lines 403-436): the
transports are created in forwards (ascending address) order with
`irq = irqmap[RANCHU_MMIO_DEV] + i`, and the `/virtio_mmio@<hex base>` dtb
nodes are then added in reverse (descending address) order. -/
def create_virtio_devices : List BoardEvent :=
  ((List.range NUM_VIRTIO_TRANSPORTS).map
    (fun i => .sysbusDeviceCreated "virtio-mmio"
      ((memmap .RANCHU_MMIO_DEV).base + i * (memmap .RANCHU_MMIO_DEV).size)
      (irqmap .RANCHU_MMIO_DEV + i))) ++
  (virtio_fdt_bases.map
    (fun base => .fdtAddSubnode ("/virtio_mmio@" ++ hexStr base)))

/-- `ranchu_init` from hw/arm/ranchu.c (lines 515-603): the RAM-size check
against `memmap[RANCHU_MEM].size` comes first (`error_report` + `exit(1)`,
modelled as the diagnostic string paired with the exit status, with an
empty event trace since nothing has been constructed); then the fdt, the
timer node, the CPU loop, the CPU nodes, the RAM region, the GIC, the six
simple devices and the virtio transports, in source order. (The
console/adb setup and the boot-descriptor packaging touch no modelled
construction state; the unknown-CPU-model exit concerns the external
`cpu_class_by_name` collaborator and is not modelled.) -/
def ranchu_init (ram_size : Nat) (smp_cpus : Nat) (kvm_on : Bool) :
    List BoardEvent × Option (String × Nat) :=
  if ram_size > (memmap .RANCHU_MEM).size then
    ([], some ("ranchu: cannot model more than 30GB RAM", 1))
  else
    (create_fdt kvm_on ++
     fdt_add_timer_nodes ++
     ranchu_cpu_loop smp_cpus ++
     fdt_add_cpu_nodes smp_cpus ++
     [.ramRegionAdded (memmap .RANCHU_MEM).base ram_size] ++
     create_gic smp_cpus ++
     create_simple_device .RANCHU_UART "pl011" ++
     create_simple_device .RANCHU_GF_FB "goldfish_fb" ++
     create_simple_device .RANCHU_GF_BATTERY "goldfish_battery" ++
     create_simple_device .RANCHU_GF_AUDIO_DEV "goldfish_audio" ++
     create_simple_device .RANCHU_GF_EVDEV "goldfish-events" ++
     create_simple_device .RANCHU_ANDROID_PIPE "android_pipe" ++
     create_virtio_devices, none)

/-- The cpu count computed by `smp_parse` in vl.c (lines 1381-1429) from
the `-smp` option values (0 meaning "not given" for each of cpus, sockets,
cores, threads, exactly as `qemu_opt_get_number(opts, ..., 0)` yields). -/
def smp_parse_cpus (cpus sockets cores threads : Nat) : Nat :=
  if cpus = 0 || sockets = 0 then
    let sockets := if sockets > 0 then sockets else 1
    let cores := if cores > 0 then cores else 1
    let threads := if threads > 0 then threads else 1
    if cpus = 0 then cores * threads * sockets else cpus
  else
    cpus

/-- The GIC distributor and CPU-interface slots sit inside the CPU
peripheral space (the source's own comment at ranchu.c line 119): the
pairs of entries that deliberately nest. -/
def nestedGicPair (i j : RanchuDevice) : Prop :=
  (i = .RANCHU_CPUPERIPHS ∧ (j = .RANCHU_GIC_DIST ∨ j = .RANCHU_GIC_CPU)) ∨
  (j = .RANCHU_CPUPERIPHS ∧ (i = .RANCHU_GIC_DIST ∨ i = .RANCHU_GIC_CPU))

instance (i j : RanchuDevice) : Decidable (nestedGicPair i j) := by
  unfold nestedGicPair; infer_instance

/-- Counterexample for C5: the distinct slots RANCHU_CPUPERIPHS
([0x8000000, 0x8020000)) and RANCHU_GIC_DIST ([0x8000000, 0x8010000))
overlap, so it is false that every two distinct memmap entries have
disjoint ranges. -/
theorem memmap_overlap_counterexample :
    RanchuDevice.RANCHU_CPUPERIPHS ≠ RanchuDevice.RANCHU_GIC_DIST ∧
      ¬ entriesDisjoint (memmap .RANCHU_CPUPERIPHS)
        (memmap .RANCHU_GIC_DIST) := by
  decide

/-- C5 (amended): the address ranges of every two distinct device slots
are disjoint, except that the GIC distributor and GIC CPU-interface slots
lie inside the CPU-peripheral container slot (and those two are disjoint
from each other). -/
theorem memmap_disjoint_except_nested_gic :
    ∀ i j : RanchuDevice, i ≠ j → ¬ nestedGicPair i j →
      entriesDisjoint (memmap i) (memmap j) := by
  decide

/-- Witness for the amended C5 at the concrete pair (UART, framebuffer). -/
theorem memmap_disjoint_except_nested_gic_witness :
    entriesDisjoint (memmap RanchuDevice.RANCHU_UART)
      (memmap RanchuDevice.RANCHU_GF_FB) :=
  memmap_disjoint_except_nested_gic RanchuDevice.RANCHU_UART
    RanchuDevice.RANCHU_GF_FB (by decide) (by decide)

/-- C6: board construction with a requested RAM size exactly equal to the
fixed RAM-slot capacity (30 GiB) passes the validation and proceeds
(non-empty construction trace, no error); one byte more fails fatally with
the diagnostic and exit status 1, with an empty construction trace — no
hardware-description node or device is created. -/
theorem ram_size_boundary (smp : Nat) (kvm : Bool) :
    (ranchu_init (30 * 1024 * 1024 * 1024) smp kvm).2 = none ∧
    (ranchu_init (30 * 1024 * 1024 * 1024) smp kvm).1 ≠ [] ∧
    ranchu_init (30 * 1024 * 1024 * 1024 + 1) smp kvm =
      ([], some ("ranchu: cannot model more than 30GB RAM", 1)) := by
  refine ⟨?_, ?_, ?_⟩
  · simp [ranchu_init, memmap]
  · simp [ranchu_init, memmap, create_fdt]
  · norm_num [ranchu_init, memmap]

/-- Extracts the CPU-instantiation events (index, start-powered-off). -/
def cpuInstOf : BoardEvent → Option (Nat × Bool)
  | .cpuInstantiated i b => some (i, b)
  | _ => none

/-- Counterexample for C7: board construction with a requested CPU count
of 0 is not rejected — `ranchu_init` reports no fatal error and simply
instantiates no CPU (the construction loop is a no-op). -/
theorem cpu_count_zero_not_rejected :
    (ranchu_init (256 * 1024 * 1024) 0 false).2 = none ∧
      ((ranchu_init (256 * 1024 * 1024) 0 false).1.filterMap cpuInstOf) =
        [] := by
  exact ⟨rfl, by rfl⟩

/-- C7 (amended): board construction with a CPU count of 0 is not
rejected: `ranchu_init` performs no CPU-count validation, proceeds with an
empty CPU-construction loop and still builds the rest of the board
(including the `/cpus` container node); no explicit minimum-1 constraint
exists in the board code. (The `-smp` parser in vl.c never produces 0:
with all options absent or zero it computes sockets*cores*threads = 1.) -/
theorem cpu_count_zero_amended :
    (ranchu_init (256 * 1024 * 1024) 0 false).2 = none ∧
    ((ranchu_init (256 * 1024 * 1024) 0 false).1.filterMap cpuInstOf) = [] ∧
    BoardEvent.fdtAddSubnode "/cpus" ∈
      (ranchu_init (256 * 1024 * 1024) 0 false).1 ∧
    smp_parse_cpus 0 0 0 0 = 1 := by
  refine ⟨rfl, by rfl, by decide, rfl⟩

/-- Extracts virtio-mmio sysbus device creations as (base, irq). -/
def virtioDevOf : BoardEvent → Option (Nat × Nat)
  | .sysbusDeviceCreated n base irq =>
      if n = "virtio-mmio" then some (base, irq) else none
  | _ => none

/-- Extracts all device-tree node additions (their paths, in order). -/
def fdtPathOf : BoardEvent → Option String
  | .fdtAddSubnode p => some p
  | _ => none

/-- C9: the 32 virtio transports are instantiated in strictly ascending
base-address order, slot i at `memmap[RANCHU_MMIO_DEV].base + i * size` with
interrupt line `irqmap[RANCHU_MMIO_DEV] + i`, and their device-tree nodes are
then added in strictly descending base-address order (the reverse of the
instantiation-order address list). -/
theorem virtio_transport_ordering :
    (create_virtio_devices.filterMap virtioDevOf) =
      (List.range NUM_VIRTIO_TRANSPORTS).map
        (fun i => ((memmap .RANCHU_MMIO_DEV).base + i * (memmap .RANCHU_MMIO_DEV).size,
                   irqmap .RANCHU_MMIO_DEV + i)) ∧
    List.Pairwise (fun a b => a.1 < b.1)
      (create_virtio_devices.filterMap virtioDevOf) ∧
    (create_virtio_devices.filterMap fdtPathOf) =
      virtio_fdt_bases.map (fun base => "/virtio_mmio@" ++ hexStr base) ∧
    List.Pairwise (· > ·) virtio_fdt_bases ∧
    virtio_fdt_bases =
      ((List.range NUM_VIRTIO_TRANSPORTS).map
        (fun i => (memmap .RANCHU_MMIO_DEV).base +
          i * (memmap .RANCHU_MMIO_DEV).size)).reverse := by
  refine ⟨by rfl, by decide, by rfl, by decide, by decide⟩

/-- Boolean string-prefix test, on the underlying character lists. -/
def strStarts (pre s : String) : Bool :=
  pre.data.isPrefixOf s.data

/-- Extracts the device-tree node additions under `/cpus` (the children of
the `/cpus` container), in order of addition. -/
def cpusChildOf : BoardEvent → Option String
  | .fdtAddSubnode p => if strStarts "/cpus/" p then some p else none
  | _ => none

lemma strStarts_append (pre s : String) : strStarts pre (pre ++ s) = true := by
  unfold strStarts
  rw [String.data_append]
  rw [List.isPrefixOf_iff_prefix]
  exact List.prefix_append _ _

lemma cpus_child_starts (n : Nat) :
    strStarts "/cpus/" ("/cpus/cpu@" ++ toString n) = true := by
  have h : ("/cpus/cpu@" ++ toString n) =
      "/cpus/" ++ ("cpu@" ++ toString n) := by
    rw [← String.append_assoc]
    rfl
  rw [h]
  exact strStarts_append _ _

lemma create_fdt_cpusChildOf (kvm : Bool) :
    (create_fdt kvm).filterMap cpusChildOf = [] := by
  cases kvm <;> rfl

lemma cpu_loop_cpusChildOf (smp : Nat) :
    (ranchu_cpu_loop smp).filterMap cpusChildOf = [] := by
  unfold ranchu_cpu_loop
  rw [List.filterMap_map]
  simp [Function.comp_def, cpusChildOf]

lemma cpu_nodes_cpusChildOf (smp : Nat) :
    (fdt_add_cpu_nodes smp).filterMap cpusChildOf =
      (List.range smp).reverse.map (fun n => "/cpus/cpu@" ++ toString n) := by
  unfold fdt_add_cpu_nodes
  rw [List.filterMap_cons]
  rw [show cpusChildOf (.fdtAddSubnode "/cpus") = none from rfl]
  rw [List.filterMap_map]
  have h : (cpusChildOf ∘
      (fun cpu : Nat =>
        BoardEvent.fdtAddSubnode ("/cpus/cpu@" ++ toString cpu))) =
      (fun cpu : Nat => some ("/cpus/cpu@" ++ toString cpu)) := by
    funext cpu
    simp [cpusChildOf, Function.comp_def, cpus_child_starts cpu]
  rw [h]
  show List.filterMap (some ∘ (fun cpu => "/cpus/cpu@" ++ toString cpu)) _ = _
  rw [List.filterMap_eq_map]

lemma virtio_cpusChildOf :
    create_virtio_devices.filterMap cpusChildOf = [] := by
  rfl

lemma trace_cpusChildOf (smp : Nat) (kvm : Bool) :
    ((ranchu_init (256 * 1024 * 1024) smp kvm).1.filterMap cpusChildOf) =
      (List.range smp).reverse.map (fun n => "/cpus/cpu@" ++ toString n) := by
  unfold ranchu_init
  rw [if_neg (by norm_num [memmap])]
  dsimp only
  simp only [List.filterMap_append]
  rw [create_fdt_cpusChildOf, cpu_loop_cpusChildOf, cpu_nodes_cpusChildOf,
    virtio_cpusChildOf]
  simp [cpusChildOf, fdt_add_timer_nodes, create_gic, create_simple_device,
    strStarts]

lemma create_fdt_cpuInstOf (kvm : Bool) :
    (create_fdt kvm).filterMap cpuInstOf = [] := by
  cases kvm <;> rfl

lemma cpu_loop_cpuInstOf (smp : Nat) :
    (ranchu_cpu_loop smp).filterMap cpuInstOf =
      (List.range smp).map (fun n => (n, decide (0 < n))) := by
  unfold ranchu_cpu_loop
  rw [List.filterMap_map]
  show List.filterMap (some ∘ (fun n : Nat => (n, decide (0 < n)))) _ = _
  rw [List.filterMap_eq_map]

lemma cpu_nodes_cpuInstOf (smp : Nat) :
    (fdt_add_cpu_nodes smp).filterMap cpuInstOf = [] := by
  unfold fdt_add_cpu_nodes
  rw [List.filterMap_cons]
  rw [show cpuInstOf (.fdtAddSubnode "/cpus") = none from rfl]
  rw [List.filterMap_map]
  simp [Function.comp_def, cpuInstOf]

lemma virtio_cpuInstOf :
    create_virtio_devices.filterMap cpuInstOf = [] := by
  rfl

lemma trace_cpuInstOf (smp : Nat) (kvm : Bool) :
    ((ranchu_init (256 * 1024 * 1024) smp kvm).1.filterMap cpuInstOf) =
      (List.range smp).map (fun n => (n, decide (0 < n))) := by
  unfold ranchu_init
  rw [if_neg (by norm_num [memmap])]
  dsimp only
  simp only [List.filterMap_append]
  rw [create_fdt_cpuInstOf, cpu_loop_cpuInstOf, cpu_nodes_cpuInstOf,
    virtio_cpuInstOf]
  simp [cpuInstOf, fdt_add_timer_nodes, create_gic, create_simple_device]

/-- C8: during board construction with n requested CPUs, the CPUs are
instantiated in ascending index order with "start-powered-off" set exactly
for the indices greater than 0, and the `/cpus/cpu@N` device-tree nodes
are added in descending index order, so the node for CPU 0 is the last
child added under `/cpus`. -/
theorem cpu_construction_order (smp : Nat) (kvm : Bool) :
    ((ranchu_init (256 * 1024 * 1024) smp kvm).1.filterMap cpuInstOf) =
      (List.range smp).map (fun n => (n, decide (0 < n))) ∧
    ((ranchu_init (256 * 1024 * 1024) smp kvm).1.filterMap cpusChildOf) =
      (List.range smp).reverse.map (fun n => "/cpus/cpu@" ++ toString n) ∧
    ((ranchu_init (256 * 1024 * 1024) smp kvm).1.filterMap
        cpusChildOf).getLast? =
      (if smp = 0 then none else some "/cpus/cpu@0") := by
  refine ⟨trace_cpuInstOf smp kvm, trace_cpusChildOf smp kvm, ?_⟩
  rw [trace_cpusChildOf smp kvm]
  rw [List.map_reverse, List.getLast?_reverse, List.head?_map]
  cases smp with
  | zero => rfl
  | succ k =>
    rw [List.range_succ_eq_map]
    rfl

end QemuAndroid
